import Mathlib

/-!
Shallow embedding of the agentic clinical-query orchestration pipeline of
`app/services/rag_service.py` (class `RAGService`), together with the pieces of
`app/services/pinecone_service.py`, `app/services/tavily_service.py` and
`app/api/v1/endpoints/rag.py` that the verified claims mention.

Modelling conventions:
* Python strings are Lean `String`s; the Python substring test `a in b` is
  `pyIn a b`; `str.lower()` is `toLowerStr` (ASCII case folding); slicing
  `s[:n]` is `String.take s n`.
* Dates are days since an arbitrary epoch (`Int`); Python's
  `(date.today() - dob).days // 365` is floor division, i.e. `Int.fdiv`.
* Python floats are embedded as exact rationals `ℚ`; all the constants
  involved (0.6, 0.05, 0.82, 0.88, 0.90, 0.95) and the arithmetic on them in
  the source stay well below any behaviour where rounding could change a
  comparison made by the claims.
* Calls to the external collaborators (Pinecone vector store, Tavily web
  search, the LLM) are stubbed by their outcomes: `none` models an
  unconfigured collaborator (`vector_store`/`tavily_tool`/`llm` being `None`),
  `some (Except.error _)` models the call raising, and `some (Except.ok v)`
  models the call returning `v`.  The `try/except` blocks of the source are
  embedded as total functions pattern-matching on these outcomes.
-/

namespace ClinicalRAG

/-! ### String helpers (Python `in`, `startswith`, `strip`, `split`) -/

/-- Bool prefix test on character lists. -/
def isPrefixChars : List Char → List Char → Bool
  | [], _ => true
  | _ :: _, [] => false
  | a :: as, b :: bs => a == b && isPrefixChars as bs

/-- Bool infix (contiguous substring) test on character lists. -/
def isInfixChars (n : List Char) : List Char → Bool
  | [] => n.isEmpty
  | b :: bs => isPrefixChars n (b :: bs) || isInfixChars n bs

/-- Python's substring containment `needle in haystack`. -/
def pyIn (needle haystack : String) : Bool :=
  isInfixChars needle.data haystack.data

/-- Python's `s.startswith((m1, m2, ...))`. -/
def startsWithAny (markers : List String) (s : String) : Bool :=
  markers.any (fun m => isPrefixChars m.data s.data)

/-- Python's `text.split("\n")` followed by per-line `strip()`. -/
def stripLines (text : String) : List String :=
  (text.splitOn "\n").map String.trim

/-- Python truthiness of an optional string (`None` and `""` are falsy). -/
def pyTruthyStr : Option String → Bool
  | none => false
  | some s => !(s == "")

/-- Python's `str.lower()` (ASCII case folding, which covers every keyword
the pipeline tests against).  Implemented over the character list so kernel
evaluation can compute it. -/
def toLowerStr (s : String) : String := String.mk (s.data.map Char.toLower)

/-! ### Data model -/

/-- A `langchain` `Document` as the retrievers produce it: page content plus
the two metadata keys the pipeline reads (`source`, `url`). -/
structure Document where
  page_content : String
  source : Option String
  url : Option String
deriving DecidableEq

/-- `doc.metadata.get('source', doc.metadata.get('url', 'Unknown'))`
(rag_service.py line 144). -/
def docSourceId (d : Document) : String :=
  d.source.getD (d.url.getD "Unknown")

/-- The fields of the `Patient` model read by the agents. -/
structure Patient where
  date_of_birth : Int
  medical_history_summary : Option String
  allergies : Option String
deriving DecidableEq

/-- The field of the `Medication` model read by the history agent. -/
structure Medication where
  medication_name : String
deriving DecidableEq

/-- The field of the `MedicalRecord` model read by the history agent. -/
structure MedicalRecord where
  diagnosis : Option String
deriving DecidableEq

/-- The patient-context bundle assembled by `get_patient_context`
(treatments are fetched but never read by any agent, so they are omitted). -/
structure PatientContext where
  patient : Patient
  medical_records : List MedicalRecord
  medications : List Medication
deriving DecidableEq

/-- `AgentResponse` of `app/schemas/rag.py`. -/
structure AgentResponse where
  agent_name : String
  findings : List String
  recommendations : List String
  confidence : ℚ
  sources : List String
deriving DecidableEq

/-- `CarePlanItem` of `app/schemas/rag.py` (`responsible_party` is always set
by the composer, so it is embedded as a plain `String`). -/
structure CarePlanItem where
  action : String
  priority : String
  timeline : String
  responsible_party : String
deriving DecidableEq

/-- Outcome of a collaborator call that raised. -/
inductive CallError
  | failure
deriving DecidableEq

/-- Outcome of one collaborator call. -/
abbrev CallResult (α : Type) := Except CallError α

/-! ### Age computation -/

/-- `RAGService._calculate_age`: `(date.today() - date_of_birth).days // 365`,
with dates as day numbers and Python floor division. -/
def calculate_age (today dob : Int) : Int :=
  (today - dob).fdiv 365

/-! ### Risk assessment agent (rag_service.py lines 296-323) -/

/-- The diabetes trigger of `risk_assessment_agent`:
`patient.medical_history_summary and "diabetes" in patient.medical_history_summary.lower()`. -/
def historyMentionsDiabetes (p : Patient) : Bool :=
  match p.medical_history_summary with
  | none => false
  | some s => !(s == "") && pyIn "diabetes" (toLowerStr s)

/-- `RAGService.risk_assessment_agent`. -/
def risk_assessment_agent (today : Int) (ctx : PatientContext) : AgentResponse :=
  let patient := ctx.patient
  let age := calculate_age today patient.date_of_birth
  let ageItems : List String × List String :=
    if age > 65 then
      (["Patient is over 65 - increased risk for complications"],
       ["Consider more conservative treatment approach"])
    else ([], [])
  let diabItems : List String × List String :=
    if historyMentionsDiabetes patient then
      (["Diabetes increases cardiovascular risk"],
       ["Monitor blood glucose closely during treatment"])
    else ([], [])
  { agent_name := "Risk Assessment Agent"
    findings := (ageItems.1 ++ diabItems.1).take 5
    recommendations := (ageItems.2 ++ diabItems.2).take 5
    confidence := 0.82
    sources := ["Risk Stratification Models"] }

/-! ### Patient history agent (rag_service.py lines 198-234) -/

/-- `RAGService.patient_history_agent`. -/
def patient_history_agent (ctx : PatientContext) : AgentResponse :=
  let patient := ctx.patient
  let records := ctx.medical_records
  let medications := ctx.medications
  let allergyItems : List String × List String :=
    if pyTruthyStr patient.allergies then
      (["Known allergies: " ++ patient.allergies.getD ""],
       ["Verify no drug interactions with current medications"])
    else ([], [])
  let medItems : List String × List String :=
    if medications.isEmpty then ([], [])
    else
      (["Current medications: " ++
          String.intercalate ", " (medications.map Medication.medication_name)],
       ["Review for potential interactions with new treatments"])
  let recent_diagnoses :=
    ((records.take 3).filter (fun r => pyTruthyStr r.diagnosis)).map
      (fun r => r.diagnosis.getD "")
  let diagItems : List String :=
    if records.isEmpty then []
    else if recent_diagnoses.isEmpty then []
    else ["Recent diagnoses: " ++ String.intercalate ", " recent_diagnoses]
  { agent_name := "Patient History Agent"
    findings := (allergyItems.1 ++ medItems.1 ++ diagItems).take 5
    recommendations := (allergyItems.2 ++ medItems.2).take 5
    confidence := 0.90
    sources := ["Patient Medical Records"] }

/-! ### Treatment protocol agent (rag_service.py lines 236-294) -/

/-- Collaborator outcomes seen by one `treatment_protocol_agent` invocation. -/
structure ProtocolStubs where
  /-- Outcome of `pinecone_service.similarity_search(protocol_query, k=3,
  namespace="treatment_protocols")`; `none` models `vector_store` unset. -/
  search : Option (CallResult (List Document))
  /-- Outcome of the LLM chain invocation; `none` models `self.llm` unset. -/
  llm : Option (CallResult String)

/-- The documents the protocol agent actually receives: an unconfigured store
is skipped and a raising search contributes nothing (the surrounding
`try/except` logs and moves on). -/
def protocolSearchDocs (stubs : ProtocolStubs) : List Document :=
  match stubs.search with
  | none => []
  | some (Except.error _) => []
  | some (Except.ok docs) => docs

/-- `RAGService.treatment_protocol_agent`.  The `query` parameter is the raw
query; the protocol search string `"Treatment protocol for: " ++ query` only
reaches the stubbed retriever, so it does not appear explicitly. -/
def treatment_protocol_agent (query : String) (stubs : ProtocolStubs) : AgentResponse :=
  let searchDocs := protocolSearchDocs stubs
  let findings0 := searchDocs.map (fun d => d.page_content.take 200)
  let sources0 := searchDocs.filterMap Document.source
  let llmRecs : List String :=
    match stubs.llm with
    | none => []
    | some llmOutcome =>
      if searchDocs.isEmpty then []
      else
        match llmOutcome with
        | Except.error _ => []
        | Except.ok text =>
          ((stripLines text).filter (fun r => !(r == ""))).take 5
  let fallback : List String × List String :=
    if findings0.isEmpty then
      if pyIn "chest pain" (toLowerStr query) then
        (["Chest pain protocol requires: ECG, troponin, CXR"],
         ["Follow institutional chest pain protocol",
          "Consider stress test if initial workup negative"])
      else ([], [])
    else ([], [])
  let findings := findings0 ++ fallback.1
  let recommendations := llmRecs ++ fallback.2
  { agent_name := "Treatment Protocol Agent"
    findings := if findings.isEmpty then ["Review standard protocols"] else findings.take 5
    recommendations :=
      if recommendations.isEmpty then ["Follow institutional guidelines"]
      else recommendations.take 5
    confidence := if findings.isEmpty then 0.6 else 0.88
    sources := if sources0.isEmpty then ["Institutional Protocols"] else sources0.take 3 }

/-! ### Clinical research agent (rag_service.py lines 81-191) -/

/-- Collaborator outcomes seen by one `clinical_research_agent` invocation. -/
structure ResearchStubs where
  /-- Outcome of `pinecone_service.similarity_search(enhanced_query, k=5,
  namespace="medical_guidelines")`; `none` models `vector_store` unset. -/
  pinecone : Option (CallResult (List Document))
  /-- Outcome of `tavily_service.search_medical_literature(query, max_results=3)`;
  `none` models `tavily_tool` unset. -/
  tavilyLit : Option (CallResult (List Document))
  /-- Outcome of `tavily_service.search_latest_guidelines(condition, max_results=2)`
  (consulted only when the keyword condition below triggers). -/
  tavilyGuide : CallResult (List Document)
  /-- Outcome of the LLM chain invocation; `none` models `self.llm` unset. -/
  llm : Option (CallResult String)

/-- First keyword gate of the extra guidelines search (line 127). -/
def research_keywords : List String := ["treatment", "guideline", "protocol", "management"]

/-- Condition keywords of the extra guidelines search (line 128). -/
def condition_keywords : List String := ["diabetes", "hypertension", "chest pain", "heart", "cardiac"]

/-- Whether the extra `search_latest_guidelines` call is issued (lines 127-136):
some keyword of the first set and some condition of the second set both occur
in `query.lower()`. -/
def guidelineSearchTriggered (query : String) : Bool :=
  research_keywords.any (fun k => pyIn k (toLowerStr query)) &&
  condition_keywords.any (fun k => pyIn k (toLowerStr query))

/-- Static-knowledge-store contribution to `all_documents` (lines 102-113):
an unconfigured store is skipped and a raising search contributes nothing. -/
def staticDocuments (stubs : ResearchStubs) : List Document :=
  match stubs.pinecone with
  | none => []
  | some (Except.error _) => []
  | some (Except.ok docs) => docs

/-- Web-search contribution to `all_documents` (lines 115-138).  If
`search_medical_literature` raises, nothing is contributed; if the later
`search_latest_guidelines` call raises, the literature results extended
before it are kept (the `except` covers the whole block, and the list was
already mutated). -/
def webDocuments (query : String) (stubs : ResearchStubs) : List Document :=
  match stubs.tavilyLit with
  | none => []
  | some (Except.error _) => []
  | some (Except.ok lit) =>
    lit ++
      (if guidelineSearchTriggered query then
        match stubs.tavilyGuide with
        | Except.error _ => []
        | Except.ok g => g
      else [])

/-- `all_documents` as accumulated by lines 100-138: static results first,
then web results. -/
def gatherAllDocuments (query : String) (stubs : ResearchStubs) : List Document :=
  staticDocuments stubs ++ webDocuments query stubs

/-- `all_documents[:8]` (line 141): the merged, bounded document list of the
hybrid retrieval step. -/
def mergedDocuments (query : String) (stubs : ResearchStubs) : List Document :=
  (gatherAllDocuments query stubs).take 8

/-- The bullet/numeral markers of line 172 (the second entry reproduces the
literal three-character sequence present in the source file). -/
def bullet_markers : List String := ["-", "â€¢", "1.", "2."]

/-- Python's `list(set(...))` on strings.  The iteration order of a Python
`set` is unspecified; it is modelled with `List.dedup`, and no verified claim
depends on the order (only the `sources` field is built this way). -/
def pySetList (l : List String) : List String := l.dedup

/-- `RAGService.clinical_research_agent`.  The enhanced query (line 92-97)
only reaches the stubbed retrievers, so it does not appear explicitly. -/
def clinical_research_agent (query : String) (stubs : ResearchStubs) : AgentResponse :=
  let all_documents := gatherAllDocuments query stubs
  let top := all_documents.take 8
  let findings0 := top.map (fun d => d.page_content.take 200)
  let sources0 := top.map docSourceId
  let recommendations0 : List String :=
    match stubs.llm with
    | none => []
    | some llmOutcome =>
      if all_documents.isEmpty then []
      else
        match llmOutcome with
        | Except.error _ => []
        | Except.ok text =>
          ((stripLines text).filter
            (fun r => !(r == "") && startsWithAny bullet_markers r)).take 5
  let noResults := findings0.isEmpty
  let findings :=
    if noResults then ["No relevant guidelines found in knowledge base or web search"]
    else findings0
  let recommendations :=
    if noResults then
      ["Consult standard medical protocols", "Review patient-specific factors",
       "Consider latest medical literature"]
    else recommendations0
  let sources := if noResults then ["Knowledge Base"] else sources0
  { agent_name := "Clinical Research Agent"
    findings := findings.take 5
    recommendations :=
      if recommendations.isEmpty then ["Review medical literature", "Consult latest guidelines"]
      else recommendations.take 5
    confidence := min 0.95 (0.6 + (all_documents.length : ℚ) * 0.05)
    sources :=
      if sources.isEmpty then ["Clinical Guidelines Database"]
      else pySetList (sources.take 5) }

/-! ### Care plan composer (rag_service.py lines 325-349) -/

/-- `RAGService.generate_care_plan`.  The `query` and `patient_id` parameters
of the source are unused by its body and omitted here. -/
def generate_care_plan (agent_responses : List AgentResponse) : List CarePlanItem :=
  let all_recommendations := (agent_responses.map AgentResponse.recommendations).flatten
  let priorities := ["high", "medium", "low"]
  ((all_recommendations.take 10).enum).map (fun p =>
    { action := p.2
      priority := priorities.get ⟨p.1 % 3, Nat.mod_lt _ (by decide)⟩
      timeline := if pyIn "immediate" (toLowerStr p.2) then "Immediate" else "Within 24-48 hours"
      responsible_party := "Primary Physician" })

/-! ### Orchestrator (rag_service.py lines 351-397) -/

/-- Errors that can escape `process_clinical_query`: the `ValueError` of
`get_patient_context` when the patient id does not resolve, and any
unexpected internal error raised inside an agent (nothing in the function
catches either). -/
inductive RunError
  | patientNotFound
  | agentFailure
deriving DecidableEq

/-- The dictionary returned by `process_clinical_query`. -/
structure QueryResult where
  agent_responses : List AgentResponse
  care_plan : List CarePlanItem
  recommended_tests : List String
  medication_recommendations : List String
  overall_risk : String
  risk_factors : List String
  summary : String
  processing_time_seconds : ℚ
deriving DecidableEq

/-- Test-keyword scan of lines 378-382. -/
def test_keywords : List String := ["ecg", "test", "lab", "imaging", "x-ray"]

/-- The `recommended_tests` accumulation of lines 378-382 (before `[:5]`). -/
def extract_recommended_tests (agent_responses : List AgentResponse) : List String :=
  (agent_responses.map (fun a =>
    a.recommendations.filter (fun rec =>
      test_keywords.any (fun t => pyIn t (toLowerStr rec))))).flatten

/-- `RAGService.process_clinical_query`, parametric in the four agent
computations so that an agent raising an unexpected internal error can be
expressed (`Except.error`): the source wraps none of the agent calls in a
`try/except`, so the monadic bind here propagates such an error exactly as
the awaited call would.  `db` is the outcome of the patient lookup
(`none` models `scalar_one_or_none()` returning `None`, which raises
`ValueError`); `elapsed` is the wall-clock difference of lines 359/384. -/
def process_clinical_query (db : Option PatientContext) (patient_id : Int)
    (include_history : Bool)
    (researchA historyA protocolA riskA : PatientContext → Except RunError AgentResponse)
    (elapsed : ℚ) : Except RunError QueryResult := do
  let ctx ← match db with
    | none => Except.error RunError.patientNotFound
    | some c => Except.ok c
  let research ← researchA ctx
  let history? ← if include_history then (historyA ctx).map some else Except.ok none
  let protocol ← protocolA ctx
  let risk ← riskA ctx
  let agent_responses := [research, protocol, risk] ++ history?.toList
  let care_plan := generate_care_plan agent_responses
  let recommended_tests := extract_recommended_tests agent_responses
  Except.ok
    { agent_responses := agent_responses
      care_plan := care_plan
      recommended_tests := recommended_tests.take 5
      medication_recommendations := []
      overall_risk := "moderate"
      risk_factors := agent_responses.map (fun f => f.findings.headD "")
      summary := "Analysis complete for patient " ++ toString patient_id ++ ". " ++
        toString agent_responses.length ++ " agents analyzed the query."
      processing_time_seconds := elapsed }

/-- `process_clinical_query` with the four agents of the source plugged in
(each returning normally, computed from the stubbed collaborator outcomes). -/
def run_clinical_query (db : Option PatientContext) (today patient_id : Int)
    (query : String) (include_history : Bool)
    (rStubs : ResearchStubs) (pStubs : ProtocolStubs) (elapsed : ℚ) :
    Except RunError QueryResult :=
  process_clinical_query db patient_id include_history
    (fun _ => Except.ok (clinical_research_agent query rStubs))
    (fun ctx => Except.ok (patient_history_agent ctx))
    (fun _ => Except.ok (treatment_protocol_agent query pStubs))
    (fun ctx => Except.ok (risk_assessment_agent today ctx))
    elapsed

/-! ### Endpoint response assembly (app/api/v1/endpoints/rag.py lines 69-83) -/

/-- The fields of `ClinicalQueryResponse` built by the endpoint that the
claims mention. -/
structure ClinicalQueryResponse where
  patient_id : Int
  query : String
  summary : String
  agent_responses : List AgentResponse
  care_plan : List CarePlanItem
  recommended_tests : List String
  follow_up_required : Bool
  follow_up_timeline : String
  processing_time_seconds : ℚ
deriving DecidableEq

/-- The response assembly of the `clinical_query` endpoint:
`follow_up_required = len(result["care_plan"]) > 0` and the urgency-based
follow-up timeline. -/
def clinical_query_response (patient_id : Int) (query urgency : String)
    (result : QueryResult) : ClinicalQueryResponse :=
  { patient_id := patient_id
    query := query
    summary := result.summary
    agent_responses := result.agent_responses
    care_plan := result.care_plan
    recommended_tests := result.recommended_tests
    follow_up_required := decide (0 < result.care_plan.length)
    follow_up_timeline :=
      if ["high", "critical"].contains urgency then "Within 24-48 hours" else "Within 1 week"
    processing_time_seconds := result.processing_time_seconds }

/-! ### Concrete inputs used by witnesses and counterexamples -/

/-- A knowledge-store document whose source identifier is "dup". -/
def dupDoc1 : Document := { page_content := "guideline A", source := some "dup", url := none }

/-- A second knowledge-store document with the same source identifier "dup". -/
def dupDoc2 : Document := { page_content := "guideline B", source := some "dup", url := none }

/-- Research-agent stubs: the knowledge store returns two documents sharing a
source identifier; web search is unconfigured. -/
def dupStubs : ResearchStubs :=
  { pinecone := some (Except.ok [dupDoc1, dupDoc2]), tavilyLit := none,
    tavilyGuide := Except.ok [], llm := none }

/-- Research-agent stubs where both retriever calls raise. -/
def failingResearchStubs : ResearchStubs :=
  { pinecone := some (Except.error CallError.failure),
    tavilyLit := some (Except.error CallError.failure),
    tavilyGuide := Except.ok [], llm := none }

/-- Protocol-agent stubs with no vector store and no LLM configured. -/
def emptyProtocolStubs : ProtocolStubs := { search := none, llm := none }

/-- A patient with no allergies and a non-diabetic history summary. -/
def samplePatient : Patient :=
  { date_of_birth := 0, medical_history_summary := some "hypertension", allergies := none }

/-- A patient context with one undiagnosed record and no active medications. -/
def sampleContext : PatientContext :=
  { patient := samplePatient, medical_records := [{ diagnosis := none }], medications := [] }

/-- Research-agent computation of a concrete run: returns normally. -/
def wResearchA : PatientContext → Except RunError AgentResponse :=
  fun _ => Except.ok (clinical_research_agent "q" failingResearchStubs)

/-- History-agent computation of a concrete run: returns normally. -/
def wHistoryA : PatientContext → Except RunError AgentResponse :=
  fun ctx => Except.ok (patient_history_agent ctx)

/-- Protocol-agent computation of a concrete run: returns normally. -/
def wProtocolA : PatientContext → Except RunError AgentResponse :=
  fun _ => Except.ok (treatment_protocol_agent "q" emptyProtocolStubs)

/-- Risk-agent computation of a concrete run: raises an unexpected internal
error. -/
def wRiskA : PatientContext → Except RunError AgentResponse :=
  fun _ => Except.error RunError.agentFailure

/-! ### Theorems -/

/-- C3: if the knowledge-store retriever and the web-search retriever both
raise (or are unconfigured), the hybrid retrieval step gathers no documents
and the merged list is empty.  Each retriever call is individually caught in
the source, which the embedding reflects by being a total function: no
exception reaches the caller. -/
theorem c3_both_retrievers_fail (query : String) (stubs : ResearchStubs)
    (hp : stubs.pinecone = none ∨ stubs.pinecone = some (Except.error CallError.failure))
    (ht : stubs.tavilyLit = none ∨ stubs.tavilyLit = some (Except.error CallError.failure)) :
    gatherAllDocuments query stubs = [] ∧ mergedDocuments query stubs = [] := by
  have hs : staticDocuments stubs = [] := by
    rcases hp with h | h <;> simp [staticDocuments, h]
  have hw : webDocuments query stubs = [] := by
    rcases ht with h | h <;> simp [webDocuments, h]
  refine ⟨?_, ?_⟩ <;> simp [mergedDocuments, gatherAllDocuments, hs, hw]

/-- C3 witness: with both retriever calls raising, the merge yields `[]`. -/
theorem c3_witness :
    (failingResearchStubs.pinecone = none ∨
      failingResearchStubs.pinecone = some (Except.error CallError.failure)) ∧
    (failingResearchStubs.tavilyLit = none ∨
      failingResearchStubs.tavilyLit = some (Except.error CallError.failure)) ∧
    (gatherAllDocuments "chest pain" failingResearchStubs = [] ∧
      mergedDocuments "chest pain" failingResearchStubs = []) :=
  ⟨Or.inr rfl, Or.inr rfl,
    c3_both_retrievers_fail "chest pain" failingResearchStubs (Or.inr rfl) (Or.inr rfl)⟩

/-- C6: the research agent's confidence equals
`min 0.95 (0.6 + 0.05 * n)` where `n` is the number of gathered documents,
and in particular always lies within `[0.6, 0.95]`. -/
theorem c6_research_confidence (query : String) (stubs : ResearchStubs) :
    (clinical_research_agent query stubs).confidence
        = min 0.95 (0.6 + ((gatherAllDocuments query stubs).length : ℚ) * 0.05) ∧
    0.6 ≤ (clinical_research_agent query stubs).confidence ∧
    (clinical_research_agent query stubs).confidence ≤ 0.95 := by
  have hc : (clinical_research_agent query stubs).confidence
      = min 0.95 (0.6 + ((gatherAllDocuments query stubs).length : ℚ) * 0.05) := rfl
  refine ⟨hc, ?_, ?_⟩
  · rw [hc]
    have h0 : (0:ℚ) ≤ ((gatherAllDocuments query stubs).length : ℚ) * 0.05 := by positivity
    exact le_min (by norm_num) (by linarith)
  · rw [hc]
    exact min_le_left _ _

/-- C7: in the assembled endpoint response, the follow-up-required flag is
true exactly when the composed care plan is non-empty. -/
theorem c7_follow_up_required (patient_id : Int) (query urgency : String)
    (result : QueryResult) :
    ((clinical_query_response patient_id query urgency result).follow_up_required = true)
      ↔ result.care_plan ≠ [] := by
  simp [clinical_query_response, List.length_pos]

/-- C1 counterexample: with two knowledge-store documents sharing the source
identifier "dup" (and web search unconfigured), the merged document list of
the hybrid retrieval step keeps both entries — the document-merging block
performs no deduplication by source identifier. -/
theorem c1_counterexample :
    (mergedDocuments "q" dupStubs).map docSourceId = ["dup", "dup"] ∧
    ¬ (mergedDocuments "q" dupStubs).Pairwise (fun a b => docSourceId a ≠ docSourceId b) := by
  constructor
  · rfl
  · decide

/-- C1 (amended): the merged document list of the hybrid retrieval step
(`all_documents[:8]`) has length at most 8 and places the static
knowledge-store results, in order, before the web-search results; no
deduplication by source identifier is performed. -/
theorem c1_merged_bound_and_order (query : String) (stubs : ResearchStubs) :
    (mergedDocuments query stubs).length ≤ 8 ∧
    (mergedDocuments query stubs).take (staticDocuments stubs).length
      = (staticDocuments stubs).take 8 ∧
    (mergedDocuments query stubs).drop (staticDocuments stubs).length
      = (webDocuments query stubs).take (8 - (staticDocuments stubs).length) := by
  unfold mergedDocuments gatherAllDocuments
  refine ⟨List.length_take_le _ _, ?_, ?_⟩
  · rw [List.take_take, List.take_append_eq_append_take]
    have h1 : min (staticDocuments stubs).length 8 - (staticDocuments stubs).length = 0 := by
      omega
    rw [h1, List.take_zero, List.append_nil, List.take_eq_take]
    omega
  · rw [List.drop_take, List.drop_append_eq_append_drop]
    have h1 : (staticDocuments stubs).length - (staticDocuments stubs).length = 0 := by omega
    rw [List.drop_length, h1, List.drop_zero, List.nil_append]

/-- C2 counterexample: a run in which the research agent raises an internal
error does not complete with a degraded finding — `process_clinical_query`
wraps no agent call, so the error propagates and aborts the run. -/
theorem c2_counterexample :
    process_clinical_query (some sampleContext) 1 true
      (fun _ => Except.error RunError.agentFailure)
      (fun ctx => Except.ok (patient_history_agent ctx))
      (fun _ => Except.ok (treatment_protocol_agent "q" emptyProtocolStubs))
      (fun ctx => Except.ok (risk_assessment_agent 0 ctx))
      0
    = Except.error RunError.agentFailure := rfl

/-- C2 (amended): `process_clinical_query` catches nothing: an unexpected
internal error raised inside any executed agent (research; history when
requested; protocol; risk) propagates to the caller and aborts the run — the
result is the error of a failed agent, and no degraded zero-confidence
finding is substituted — and a patient id that does not resolve likewise
aborts the run with the not-found error. -/
theorem c2_agent_error_propagates (ctx : PatientContext) (patient_id : Int)
    (include_history : Bool)
    (researchA historyA protocolA riskA : PatientContext → Except RunError AgentResponse)
    (elapsed : ℚ) (e : RunError)
    (hfail : researchA ctx = Except.error e ∨
      (include_history = true ∧ historyA ctx = Except.error e) ∨
      protocolA ctx = Except.error e ∨ riskA ctx = Except.error e) :
    (∃ f, process_clinical_query (some ctx) patient_id include_history
          researchA historyA protocolA riskA elapsed = Except.error f ∧
        (researchA ctx = Except.error f ∨
          (include_history = true ∧ historyA ctx = Except.error f) ∨
          protocolA ctx = Except.error f ∨ riskA ctx = Except.error f)) ∧
    process_clinical_query none patient_id include_history
        researchA historyA protocolA riskA elapsed
      = Except.error RunError.patientNotFound := by
  refine ⟨?_, rfl⟩
  cases hres : researchA ctx with
  | error f =>
    exact ⟨f, by simp [process_clinical_query, hres, bind, Except.bind], Or.inl rfl⟩
  | ok r =>
    cases include_history with
    | true =>
      cases hhist : historyA ctx with
      | error f =>
        exact ⟨f,
          by simp [process_clinical_query, hres, hhist, bind, Except.bind, Except.map],
          Or.inr (Or.inl ⟨rfl, rfl⟩)⟩
      | ok h =>
        cases hprot : protocolA ctx with
        | error f =>
          exact ⟨f,
            by simp [process_clinical_query, hres, hhist, hprot, bind, Except.bind, Except.map],
            Or.inr (Or.inr (Or.inl rfl))⟩
        | ok p =>
          cases hrisk : riskA ctx with
          | error f =>
            exact ⟨f,
              by simp [process_clinical_query, hres, hhist, hprot, hrisk, bind, Except.bind,
                Except.map],
              Or.inr (Or.inr (Or.inr rfl))⟩
          | ok k =>
            exfalso
            rcases hfail with h | ⟨-, h⟩ | h | h
            · rw [hres] at h; exact Except.noConfusion h
            · rw [hhist] at h; exact Except.noConfusion h
            · rw [hprot] at h; exact Except.noConfusion h
            · rw [hrisk] at h; exact Except.noConfusion h
    | false =>
      cases hprot : protocolA ctx with
      | error f =>
        exact ⟨f,
          by simp [process_clinical_query, hres, hprot, bind, Except.bind, Except.map],
          Or.inr (Or.inr (Or.inl rfl))⟩
      | ok p =>
        cases hrisk : riskA ctx with
        | error f =>
          exact ⟨f,
            by simp [process_clinical_query, hres, hprot, hrisk, bind, Except.bind, Except.map],
            Or.inr (Or.inr (Or.inr rfl))⟩
        | ok k =>
          exfalso
          rcases hfail with h | ⟨hih, -⟩ | h | h
          · rw [hres] at h; exact Except.noConfusion h
          · exact Bool.noConfusion hih
          · rw [hprot] at h; exact Except.noConfusion h
          · rw [hrisk] at h; exact Except.noConfusion h

/-- C2 witness: the amended statement at a concrete run whose risk agent
raises while research, history and protocol return normally. -/
theorem c2_witness :
    (wResearchA sampleContext = Except.error RunError.agentFailure ∨
      (true = true ∧ wHistoryA sampleContext = Except.error RunError.agentFailure) ∨
      wProtocolA sampleContext = Except.error RunError.agentFailure ∨
      wRiskA sampleContext = Except.error RunError.agentFailure) ∧
    ((∃ f, process_clinical_query (some sampleContext) 1 true
          wResearchA wHistoryA wProtocolA wRiskA 2 = Except.error f ∧
        (wResearchA sampleContext = Except.error f ∨
          (true = true ∧ wHistoryA sampleContext = Except.error f) ∨
          wProtocolA sampleContext = Except.error f ∨
          wRiskA sampleContext = Except.error f)) ∧
      process_clinical_query none 1 true wResearchA wHistoryA wProtocolA wRiskA 2
        = Except.error RunError.patientNotFound) :=
  ⟨Or.inr (Or.inr (Or.inr rfl)),
    c2_agent_error_propagates sampleContext 1 true wResearchA wHistoryA wProtocolA wRiskA 2
      RunError.agentFailure (Or.inr (Or.inr (Or.inr rfl)))⟩

/-- Helper: the diabetes trigger of the risk agent holds exactly when the
history summary is present and contains "diabetes" case-insensitively. -/
lemma historyMentionsDiabetes_iff (p : Patient) :
    historyMentionsDiabetes p = true
      ↔ ∃ s, p.medical_history_summary = some s ∧ pyIn "diabetes" (toLowerStr s) = true := by
  unfold historyMentionsDiabetes
  cases hsum : p.medical_history_summary with
  | none => simp
  | some s =>
    simp only [Bool.and_eq_true, Bool.not_eq_eq_eq_not, Bool.not_true, beq_eq_false_iff_ne,
      ne_eq, Option.some.injEq]
    constructor
    · rintro ⟨-, hin⟩
      exact ⟨s, rfl, hin⟩
    · rintro ⟨t, rfl, hin⟩
      refine ⟨?_, hin⟩
      rintro rfl
      exact absurd hin (by decide)

/-- C4: the care plan flattens the agents' recommendations in the fixed order
Research, Protocol, Risk, then History when present; it keeps at most the
first 10 entries; the entry at 0-based index `i` gets action equal to the
`i`-th flattened recommendation, priority `["high","medium","low"][i % 3]`,
timeline "Immediate" exactly when the text contains "immediate"
case-insensitively (else "Within 24-48 hours"), and responsible party
"Primary Physician". -/
theorem c4_care_plan (research protocol risk : AgentResponse)
    (history : Option AgentResponse) :
    (generate_care_plan ([research, protocol, risk] ++ history.toList)).length
        = min (research.recommendations ++ protocol.recommendations ++ risk.recommendations
            ++ (match history with | some h => h.recommendations | none => [])).length 10 ∧
    ∀ i : ℕ,
      (generate_care_plan ([research, protocol, risk] ++ history.toList)).get? i
        = (((research.recommendations ++ protocol.recommendations ++ risk.recommendations
              ++ (match history with | some h => h.recommendations | none => [])).take 10).get?
              i).map
            (fun rec =>
              { action := rec
                priority := ["high", "medium", "low"].get ⟨i % 3, Nat.mod_lt _ (by decide)⟩
                timeline :=
                  if pyIn "immediate" (toLowerStr rec) then "Immediate" else "Within 24-48 hours"
                responsible_party := "Primary Physician" }) := by
  have hflat :
      (([research, protocol, risk] ++ history.toList).map AgentResponse.recommendations).flatten
        = research.recommendations ++ protocol.recommendations ++ risk.recommendations
            ++ (match history with | some h => h.recommendations | none => []) := by
    cases history <;> simp
  constructor
  · simp only [generate_care_plan]
    rw [hflat]
    simp [Nat.min_comm]
  · intro i
    simp only [generate_care_plan, hflat, List.get?_map, List.get?_enum, Option.map_map]
    cases ((research.recommendations ++ protocol.recommendations ++ risk.recommendations
        ++ (match history with | some h => h.recommendations | none => [])).take 10).get? i <;>
      rfl

/-- C5: the risk agent's output contains the elevated-risk finding exactly
when the computed age (floor of the day difference divided by 365) exceeds
65, and contains the cardiovascular-risk finding and the glucose-monitoring
recommendation exactly when the history summary contains "diabetes"
case-insensitively. -/
theorem c5_risk_agent (today : Int) (ctx : PatientContext) :
    ("Patient is over 65 - increased risk for complications"
        ∈ (risk_assessment_agent today ctx).findings
      ↔ calculate_age today ctx.patient.date_of_birth > 65) ∧
    ("Diabetes increases cardiovascular risk" ∈ (risk_assessment_agent today ctx).findings
      ↔ ∃ s, ctx.patient.medical_history_summary = some s
          ∧ pyIn "diabetes" (toLowerStr s) = true) ∧
    ("Monitor blood glucose closely during treatment"
        ∈ (risk_assessment_agent today ctx).recommendations
      ↔ ∃ s, ctx.patient.medical_history_summary = some s
          ∧ pyIn "diabetes" (toLowerStr s) = true) := by
  rw [← historyMentionsDiabetes_iff]
  by_cases hage : calculate_age today ctx.patient.date_of_birth > 65 <;>
    cases hdia : historyMentionsDiabetes ctx.patient <;>
      simp [risk_assessment_agent, hage, hdia]

/-- C8: two runs of the pipeline with identical inputs and identical stubbed
collaborator outcomes produce the same care plan (same order) and the same
recommended tests — the only input the result may differ in is the measured
elapsed time. -/
theorem c8_deterministic (db : Option PatientContext) (today patient_id : Int)
    (query : String) (include_history : Bool)
    (rStubs : ResearchStubs) (pStubs : ProtocolStubs)
    (e1 e2 : ℚ) (r1 r2 : QueryResult)
    (h1 : run_clinical_query db today patient_id query include_history rStubs pStubs e1
        = Except.ok r1)
    (h2 : run_clinical_query db today patient_id query include_history rStubs pStubs e2
        = Except.ok r2) :
    r1.care_plan = r2.care_plan ∧ r1.recommended_tests = r2.recommended_tests := by
  cases db with
  | none => simp [run_clinical_query, process_clinical_query, bind, Except.bind] at h1
  | some ctx =>
    cases include_history <;>
      · simp only [run_clinical_query, process_clinical_query, bind, Except.bind,
          Except.map, Bool.false_eq_true, if_true, if_false, Except.ok.injEq] at h1 h2
        subst h1
        subst h2
        exact ⟨rfl, rfl⟩

/-- C8 witness: a concrete run executed with two different clock readings. -/
theorem c8_witness :
    ∃ r1 r2 : QueryResult,
      run_clinical_query (some sampleContext) 26000 7 "chest pain management" true
          dupStubs emptyProtocolStubs 1 = Except.ok r1 ∧
      run_clinical_query (some sampleContext) 26000 7 "chest pain management" true
          dupStubs emptyProtocolStubs 2 = Except.ok r2 ∧
      (r1.care_plan = r2.care_plan ∧ r1.recommended_tests = r2.recommended_tests) :=
  ⟨_, _, rfl, rfl,
    c8_deterministic (some sampleContext) 26000 7 "chest pain management" true
      dupStubs emptyProtocolStubs 1 2 _ _ rfl rfl⟩

/-- C9: for a patient with no allergies, no active medications and no
record carrying a diagnosis, the history agent returns empty findings and
recommendations, confidence 0.90 and the single fixed source tag (and, being
a total function of the context, raises nothing). -/
theorem c9_history_agent (ctx : PatientContext)
    (ha : ctx.patient.allergies = none)
    (hm : ctx.medications = [])
    (hr : ∀ r ∈ ctx.medical_records, r.diagnosis = none) :
    patient_history_agent ctx =
      { agent_name := "Patient History Agent", findings := [], recommendations := [],
        confidence := 0.90, sources := ["Patient Medical Records"] } := by
  have hfilter : (ctx.medical_records.take 3).filter (fun r => pyTruthyStr r.diagnosis) = [] := by
    rw [List.filter_eq_nil_iff]
    intro r hmem
    have hd : r.diagnosis = none := hr r (List.take_subset 3 _ hmem)
    simp [pyTruthyStr, hd]
  have hpa : pyTruthyStr none = false := rfl
  simp [patient_history_agent, ha, hm, hfilter, hpa]

/-- C9 witness: the history agent on a concrete context with one undiagnosed
record. -/
theorem c9_witness :
    sampleContext.patient.allergies = none ∧
    sampleContext.medications = [] ∧
    (∀ r ∈ sampleContext.medical_records, r.diagnosis = none) ∧
    patient_history_agent sampleContext =
      { agent_name := "Patient History Agent", findings := [], recommendations := [],
        confidence := 0.90, sources := ["Patient Medical Records"] } :=
  ⟨rfl, rfl, by decide, c9_history_agent sampleContext rfl rfl (by decide)⟩

/-- C10: when retrieval returns zero documents and the query contains
"chest pain" case-insensitively, the protocol agent's hardcoded chest-pain
fallback counts as a finding and the confidence is 0.88, not the degraded
0.6; the 0.6 confidence is reached only when retrieval is empty and the
query lacks "chest pain". -/
theorem c10_protocol_confidence (query : String) (stubs : ProtocolStubs)
    (hq : pyIn "chest pain" (toLowerStr query) = true)
    (hd : protocolSearchDocs stubs = []) :
    (treatment_protocol_agent query stubs).confidence = 0.88 ∧
    ∀ (q : String) (s : ProtocolStubs),
      (treatment_protocol_agent q s).confidence = 0.6 →
        protocolSearchDocs s = [] ∧ pyIn "chest pain" (toLowerStr q) = false := by
  constructor
  · simp [treatment_protocol_agent, hd, hq]
  · intro q s hconf
    cases hds : protocolSearchDocs s with
    | nil =>
      by_cases hqq : pyIn "chest pain" (toLowerStr q) = true
      · exfalso
        simp [treatment_protocol_agent, hds, hqq] at hconf
        norm_num at hconf
      · exact ⟨rfl, by simpa using hqq⟩
    | cons d ds =>
      exfalso
      simp [treatment_protocol_agent, hds] at hconf
      norm_num at hconf

/-- C10 witness: a chest-pain query with an unconfigured vector store. -/
theorem c10_witness :
    pyIn "chest pain" (toLowerStr "Chest pain management") = true ∧
    protocolSearchDocs emptyProtocolStubs = [] ∧
    ((treatment_protocol_agent "Chest pain management" emptyProtocolStubs).confidence = 0.88 ∧
      ∀ (q : String) (s : ProtocolStubs),
        (treatment_protocol_agent q s).confidence = 0.6 →
          protocolSearchDocs s = [] ∧ pyIn "chest pain" (toLowerStr q) = false) :=
  ⟨by decide, rfl,
    c10_protocol_confidence "Chest pain management" emptyProtocolStubs (by decide) rfl⟩

end ClinicalRAG
